import Mathlib

/-!
Verification development for the coupled leaf gas-exchange model
(`solve_coupled_An_gs_leaf_temp_transpiration.py`, `penman_monteith_leaf.py`,
`utils.py`).

The solver loop of `CoupledModel.main` is embedded over `ℚ` (exact arithmetic
standing in for the Python floats) and parameterized over the two submodels it
calls, `FarquharC3.calc_photosynthesis` and `LeafEnergyBalance.calc_leaf_temp`,
whose defining modules (`farq.py`, `leaf_energy_balance.py`) are not part of
this repository snapshot; every claim about the loop holds for all submodel
behaviours, so they appear as parameters.  The Penman-Monteith leaf functions
(`calc_esat`, `calc_et`, `calc_conductances`) and the `utils.py` helpers are
embedded over `ℝ` since they involve `exp`, `sqrt`, and real powers.
-/

/-- The per-call environment of `CoupledModel.main(tair, par, vpd, wind,
pressure, Ca)`. -/
structure Env where
  tair : ℚ
  par : ℚ
  vpd : ℚ
  wind : ℚ
  pressure : ℚ
  Ca : ℚ

/-- Outputs of `FarquharC3.calc_photosynthesis` that the loop uses: the net
assimilation `An` and the stomatal conductance `gs` (the component-limited
rates `Acn`, `Ajn` are discarded by the caller and omitted). -/
structure PhotoOut where
  An : ℚ
  gs : ℚ

/-- Outputs of `LeafEnergyBalance.calc_leaf_temp`: the tuple
`(new_tleaf, et, gbH, gw)`. -/
structure LeafOut where
  newTleaf : ℚ
  et : ℚ
  gbH : ℚ
  gw : ℚ

/-- The two external submodels invoked by the solver loop.  `photo` receives
`(Cs, Tleaf_K, Par, dleaf)` (the arguments of `calc_photosynthesis` that vary
or matter per call; the biochemical parameters are fixed over a solve call and
absorbed into the function).  `leafTemp` receives the seven arguments of
`calc_leaf_temp(Tleaf, tair, gs, par, vpd, pressure, wind)`. -/
structure Submodels where
  photo : ℚ → ℚ → ℚ → ℚ → PhotoOut
  leafTemp : ℚ → ℚ → ℚ → ℚ → ℚ → ℚ → ℚ → LeafOut

/-- Everything one execution of the `while` body of `CoupledModel.main`
produces: the submodel outputs `(An, gs, et, new_tleaf)` together with the
updated surface CO2 `Cs` and leaf-to-air deficit `dleaf`. -/
structure BodyOut where
  An : ℚ
  gs : ℚ
  et : ℚ
  newTleaf : ℚ
  newCs : ℚ
  newDleaf : ℚ

/-- One execution of the loop body of `CoupledModel.main`, before the
convergence test:

* `(An, _, _, gs) = F.calc_photosynthesis(Cs, Tleaf + 273.15, par, ..., dleaf)`
* `(new_tleaf, et, gbH, gw) = L.calc_leaf_temp(Tleaf, tair, gs, par, vpd,
  pressure, wind)`
* `gbc = gbH * GBH_2_GBC` with `GBH_2_GBC = 1.0 / 1.32`
* `Cs = Ca - An / gbc`
* `dleaf = (et * pressure / gw) * pa_2_kpa` with `pa_2_kpa = 1.0 / 1000`. -/
def loopBody (M : Submodels) (e : Env) (Tleaf Cs dleaf : ℚ) : BodyOut :=
  let p := M.photo Cs (Tleaf + 273.15) e.par dleaf
  let L := M.leafTemp Tleaf e.tair p.gs e.par e.vpd e.pressure e.wind
  let gbc := L.gbH * (1 / 1.32)
  { An := p.An
    gs := p.gs
    et := L.et
    newTleaf := L.newTleaf
    newCs := e.Ca - p.An / gbc
    newDleaf := (L.et * e.pressure / L.gw) * (1 / 1000) }

/-- The `while True` loop of `CoupledModel.main`.  `iter` is the Python `iter`
counter (starting at 0); after the body, `if fabs(Tleaf - new_tleaf) < 0.02`
the loop breaks returning `(An, gs, et)`, else `if iter > iter_max` it raises
`No convergence: iter`, else it sets `Tleaf = new_tleaf` and repeats.  `fuel`
is a structural-recursion bound; the entry point supplies `iter_max + 2`,
which is exact: the raise fires on the body whose `iter` equals
`iter_max + 1`, so the `fuel = 0` branch is unreachable (proved below). -/
def mainAux (M : Submodels) (e : Env) (iterMax : ℕ) :
    ℕ → ℕ → ℚ → ℚ → ℚ → Except ℕ (ℚ × ℚ × ℚ)
  | 0, iter, _, _, _ => Except.error iter
  | fuel + 1, iter, Tleaf, Cs, dleaf =>
    let b := loopBody M e Tleaf Cs dleaf
    if |Tleaf - b.newTleaf| < 0.02 then
      Except.ok (b.An, b.gs, b.et)
    else if iterMax < iter then
      Except.error iter
    else
      mainAux M e iterMax fuel (iter + 1) b.newTleaf b.newCs b.newDleaf

/-- Number of loop-body executions (equivalently, of
`calc_photosynthesis` calls) performed by `mainAux` on the same arguments. -/
def mainAuxSteps (M : Submodels) (e : Env) (iterMax : ℕ) :
    ℕ → ℕ → ℚ → ℚ → ℚ → ℕ
  | 0, _, _, _, _ => 0
  | fuel + 1, iter, Tleaf, Cs, dleaf =>
    let b := loopBody M e Tleaf Cs dleaf
    if |Tleaf - b.newTleaf| < 0.02 then
      1
    else if iterMax < iter then
      1
    else
      1 + mainAuxSteps M e iterMax fuel (iter + 1) b.newTleaf b.newCs b.newDleaf

/-- `CoupledModel.main(tair, par, vpd, wind, pressure, Ca)`: initializes
`dleaf = vpd`, `Cs = Ca`, `Tleaf = tair`, `iter = 0` and runs the loop.
`iterMax` is `self.iter_max` from the constructor (default 100). -/
def CoupledModel.main (M : Submodels) (e : Env) (iterMax : ℕ) :
    Except ℕ (ℚ × ℚ × ℚ) :=
  mainAux M e iterMax (iterMax + 2) 0 e.tair e.Ca e.vpd

/-- Loop-body executions performed by `CoupledModel.main`. -/
def CoupledModel.mainSteps (M : Submodels) (e : Env) (iterMax : ℕ) : ℕ :=
  mainAuxSteps M e iterMax (iterMax + 2) 0 e.tair e.Ca e.vpd

/-- The stomatal-model tag: the source passes the strings `"leuning"` or
`"medlyn"`; embedded as a two-value type. -/
inductive GsModel where
  | leuning
  | medlyn
deriving DecidableEq

/-- The attributes stored by `CoupledModel.__init__`. -/
structure CoupledParams where
  g0 : ℚ
  g1 : ℚ
  D0 : ℚ
  Vcmax25 : ℚ
  Jmax25 : ℚ
  Rd25 : ℚ
  Eaj : ℚ
  Eav : ℚ
  deltaSj : ℚ
  deltaSv : ℚ
  Hdv : ℚ
  Hdj : ℚ
  Q10 : ℚ
  leaf_width : ℚ
  SW_abs : ℚ
  gs_model : GsModel
  iter_max : ℕ
deriving DecidableEq

/-- `CoupledModel.__init__`: stores every argument as an attribute.  The
result type is `Except` so that a construction-time failure (a Python
`raise`) would be expressible; the source body consists solely of
assignments and has no raise path, so the result is always `Except.ok`. -/
def CoupledModel.init (g0 g1 D0 Vcmax25 Jmax25 Rd25 Eaj Eav deltaSj deltaSv
    Hdv Hdj Q10 leaf_width SW_abs : ℚ) (gs_model : GsModel) (iter_max : ℕ) :
    Except Unit CoupledParams :=
  Except.ok
    { g0 := g0, g1 := g1, D0 := D0, Vcmax25 := Vcmax25, Jmax25 := Jmax25
      Rd25 := Rd25, Eaj := Eaj, Eav := Eav, deltaSj := deltaSj
      deltaSv := deltaSv, Hdv := Hdv, Hdj := Hdj, Q10 := Q10
      leaf_width := leaf_width, SW_abs := SW_abs, gs_model := gs_model
      iter_max := iter_max }

/-- An all-zero environment, used for concrete loop executions. -/
def env0 : Env :=
  { tair := 0, par := 0, vpd := 0, wind := 0, pressure := 0, Ca := 0 }

/-- Submodels under which the leaf temperature moves by 1 degree every
iteration, so the solver never converges. -/
def Mdiv : Submodels :=
  { photo := fun _ _ _ _ => { An := 0, gs := 0 }
    leafTemp := fun Tleaf _ _ _ _ _ _ =>
      { newTleaf := Tleaf + 1, et := 0, gbH := 1, gw := 1 } }

/-- Submodels under which the leaf temperature is already a fixed point, so
the solver converges on the first iteration. -/
def Mconst : Submodels :=
  { photo := fun _ _ _ _ => { An := 0, gs := 1 }
    leafTemp := fun Tleaf _ _ _ _ _ _ =>
      { newTleaf := Tleaf, et := 5, gbH := 1, gw := 1 } }

/-- Submodels under which the leaf temperature is scaled by 1/1000 every
iteration, so from `tair = 1` the solver converges on the second iteration
(at leaf temperature 1/1000, not at the air temperature). -/
def Mslow : Submodels :=
  { photo := fun _ _ _ _ => { An := 0, gs := 1 }
    leafTemp := fun Tleaf _ _ _ _ _ _ =>
      { newTleaf := Tleaf * (1 / 1000), et := 5, gbH := 1, gw := 1 } }

/-- An environment with `tair = 1` and all other drivers zero. -/
def env1 : Env :=
  { tair := 1, par := 0, vpd := 0, wind := 0, pressure := 0, Ca := 0 }

noncomputable section

namespace PenmanMonteith

/-- `self.cp`: specific heat of dry air (J kg-1 K-1). -/
def cp : ℝ := 1010.0

/-- `self.h2olv0`: latent heat of H2O at 0 degrees C (J kg-1). -/
def h2olv0 : ℝ := 2.501e6

/-- `self.h2omw`: molar mass of H2O (kg mol-1). -/
def h2omw : ℝ := 18e-3

/-- `self.air_mass`: molar mass of air (kg mol-1). -/
def air_mass : ℝ := 29.0e-3

/-- `self.sigma`: Stefan-Boltzmann constant (W m-2 K-4). -/
def sigma : ℝ := 5.6704e-8

/-- `self.emissivity_leaf`. -/
def emissivity_leaf : ℝ := 0.99

/-- `self.dheat`: molecular diffusivity for heat (m2 s-1). -/
def dheat : ℝ := 21.5e-6

/-- `self.GSC_2_GSW = 1.57`. -/
def GSC_2_GSW : ℝ := 1.57

/-- `PenmanMonteith.calc_esat(tair, pressure)`:
`f = 1.0007 + 3.46 * 10E-8 * pressure` (the Python literal `10E-8` is
`10 * 10 ^ (-8) = 1e-7`), `esat = f * a * exp(b * tair / (c + tair))` with
`a = 611.21`, `b = 17.502`, `c = 240.97`. -/
def calc_esat (tair pressure : ℝ) : ℝ :=
  let a : ℝ := 611.21
  let b : ℝ := 17.502
  let c : ℝ := 240.97
  let f : ℝ := 1.0007 + 3.46 * 10e-8 * pressure
  f * a * Real.exp (b * tair / (c + tair))

/-- `PenmanMonteith.calc_et(tleaf, tair, vpd, pressure, wind, par, gh, gw,
rnet)`: the isothermal Penman-Monteith transpiration.  Returns the pair
`(et / lambda_et, LE_et)` of the source, i.e. transpiration
(mol H2O m-2 s-1) and latent heat flux (W m-2); when `gw <= 0` it returns
`(0.0, 0.0)` from the early branch. -/
def calc_et (tleaf tair vpd pressure wind par gh gw rnet : ℝ) : ℝ × ℝ :=
  let lambda_et : ℝ := (h2olv0 - 2.365e3 * tair) * h2omw
  let slope : ℝ :=
    (calc_esat (tair + 0.1) pressure - calc_esat tair pressure) / 0.1
  let gamma : ℝ := cp * air_mass * pressure / lambda_et
  if gw ≤ 0 then
    (0, 0)
  else
    let arg1 : ℝ := slope * rnet + (vpd * 1000) * gh * cp * air_mass
    let arg2 : ℝ := slope + gamma * gh / gw
    let et : ℝ := arg1 / arg2
    (et / lambda_et, et)

/-- `PenmanMonteith.calc_conductances(tair_k, tleaf, tair, wind, gsc,
cmolar)`: radiation, heat, boundary-layer and water-vapour conductances
`(grn, gh, gbH, gw)`.  `self.leaf_width` is passed explicitly. -/
def calc_conductances (leaf_width tair_k tleaf tair wind gsc cmolar : ℝ) :
    ℝ × ℝ × ℝ × ℝ :=
  let grn : ℝ :=
    (4.0 * sigma * tair_k ^ (3 : ℕ) * emissivity_leaf) / (cp * air_mass)
  let gbHw : ℝ := 0.003 * Real.sqrt (wind / leaf_width) * cmolar
  let grashof_num : ℝ := 1.6e8 * |tleaf - tair| * leaf_width ^ (3 : ℕ)
  let gbHf : ℝ :=
    0.5 * dheat * grashof_num ^ (0.25 : ℝ) / leaf_width * cmolar
  let gbH : ℝ := gbHw + gbHf
  let gh : ℝ := 2.0 * (gbH + grn)
  let gbw : ℝ := gbH * GSC_2_GSW
  let gsw : ℝ := gsc * GSC_2_GSW
  let gw : ℝ := (gbw * gsw) / (gbw + gsw)
  (grn, gh, gbH, gw)

end PenmanMonteith

namespace Utils

/-- `utils.calc_esat(tair, pressure)`:
`esat = a * exp(b * tair / (c + tair))` with `a = 613.75`, `b = 17.502`,
`c = 240.97`.  The `pressure` parameter appears in the signature but is not
used in the body. -/
def calc_esat (tair pressure : ℝ) : ℝ :=
  let a : ℝ := 613.75
  let b : ℝ := 17.502
  let c : ℝ := 240.97
  a * Real.exp (b * tair / (c + tair))

/-- `utils.vpd_to_rh(vpd, tair, pressure)`:
`rh = 1 - (vpd * 1000) / calc_esat(tair, pressure)`, then
`max(0.0, min(1.0, rh))`. -/
def vpd_to_rh (vpd tair pressure : ℝ) : ℝ :=
  max 0 (min 1 (1 - (vpd * 1000) / calc_esat tair pressure))

end Utils

/-- Modelled from the spec: the Penman-Monteith combination expression as the
spec states it — `ET = (slope*Rnet + cp*air_mass*(VPD in Pa)*gh) /
(slope + gamma*gh/gw)`, with `slope` the finite difference of `esat` around
air temperature and `gamma = cp * air_mass * pressure / lambda`.  Used as the
comparand for the refinement claim about `calc_et`; per the claim's wording
this expression is asserted to be the returned transpiration. -/
def et_combination (tair vpd pressure gh gw rnet : ℝ) : ℝ :=
  let lambda : ℝ := (PenmanMonteith.h2olv0 - 2.365e3 * tair) *
    PenmanMonteith.h2omw
  let slope : ℝ :=
    (PenmanMonteith.calc_esat (tair + 0.1) pressure -
      PenmanMonteith.calc_esat tair pressure) / 0.1
  let gamma : ℝ := PenmanMonteith.cp * PenmanMonteith.air_mass * pressure /
    lambda
  (slope * rnet + PenmanMonteith.cp * PenmanMonteith.air_mass *
    (vpd * 1000) * gh) / (slope + gamma * gh / gw)

end

/-- The solver loop either breaks out of some body with
`|Tleaf - new_tleaf| < 0.02`, returning that body's `(An, gs, et)`, or raises
with counter value `iterMax + 1` after running the body exactly `fuel` more
times.  The invariant `iter + fuel = iterMax + 2` and `iter ≤ iterMax + 1`
holds along the recursion, so the `fuel = 0` branch is never taken. -/
lemma mainAux_spec (M : Submodels) (e : Env) (iterMax : ℕ) :
    ∀ fuel iter Tleaf Cs dleaf, iter + fuel = iterMax + 2 →
      iter ≤ iterMax + 1 →
      (∃ T C d, |T - (loopBody M e T C d).newTleaf| < 0.02 ∧
        mainAux M e iterMax fuel iter Tleaf Cs dleaf =
          Except.ok ((loopBody M e T C d).An, (loopBody M e T C d).gs,
            (loopBody M e T C d).et)) ∨
      (mainAux M e iterMax fuel iter Tleaf Cs dleaf =
          Except.error (iterMax + 1) ∧
        mainAuxSteps M e iterMax fuel iter Tleaf Cs dleaf = fuel) := by
  intro fuel
  induction fuel with
  | zero => intro iter T C d h1 h2; omega
  | succ f ih =>
    intro iter T C d h1 h2
    by_cases hconv : |T - (loopBody M e T C d).newTleaf| < 0.02
    · exact Or.inl ⟨T, C, d, hconv, by simp [mainAux, hconv]⟩
    · by_cases hiter : iterMax < iter
      · have hit : iter = iterMax + 1 := by omega
        have hf : f = 0 := by omega
        refine Or.inr ⟨?_, ?_⟩
        · simp [mainAux, hconv, hiter, hit]
        · simp [mainAuxSteps, hconv, hiter, hf]
      · have h1' : (iter + 1) + f = iterMax + 2 := by omega
        have h2' : iter + 1 ≤ iterMax + 1 := by omega
        rcases ih (iter + 1) (loopBody M e T C d).newTleaf
            (loopBody M e T C d).newCs (loopBody M e T C d).newDleaf h1' h2'
          with ⟨T', C', d', hc, hok⟩ | ⟨herr, hsteps⟩
        · exact Or.inl ⟨T', C', d', hc, by simpa [mainAux, hconv, hiter]
            using hok⟩
        · refine Or.inr ⟨by simpa [mainAux, hconv, hiter] using herr, ?_⟩
          simp [mainAuxSteps, hconv, hiter, hsteps]
          omega

/-- C1 (amended): for every environment and every behaviour of the two
submodels, `CoupledModel.main` either returns `(An, gs, et)` from a loop body
on which `|Tleaf - new_tleaf| < 0.02` held, or raises a no-convergence error
whose carried counter value is `iter_max + 1` — after executing the loop body
exactly `iter_max + 2` times (not `iter_max + 1`). -/
theorem main_converges_or_raises (M : Submodels) (e : Env) (iterMax : ℕ) :
    (∃ T C d, |T - (loopBody M e T C d).newTleaf| < 0.02 ∧
      CoupledModel.main M e iterMax =
        Except.ok ((loopBody M e T C d).An, (loopBody M e T C d).gs,
          (loopBody M e T C d).et)) ∨
    (CoupledModel.main M e iterMax = Except.error (iterMax + 1) ∧
      CoupledModel.mainSteps M e iterMax = iterMax + 2) :=
  mainAux_spec M e iterMax (iterMax + 2) 0 e.tair e.Ca e.vpd
    (Nat.zero_add _) (Nat.zero_le _)

set_option maxRecDepth 100000 in
set_option maxHeartbeats 2000000 in
/-- C1 counterexample: with submodels that move the leaf temperature by one
degree per iteration (so the loop never converges) and the default
`iter_max = 100`, the solver raises carrying counter value 101 after 102
executions of the loop body — not after `iter_max + 1 = 101` attempts as the
claim states. -/
theorem main_attempts_counterexample :
    CoupledModel.main Mdiv env0 100 = Except.error 101 ∧
      CoupledModel.mainSteps Mdiv env0 100 = 102 := by
  constructor
  · norm_num [CoupledModel.main, mainAux, loopBody, Mdiv, env0]
  · norm_num [CoupledModel.mainSteps, mainAuxSteps, loopBody, Mdiv, env0]

/-- C2: in every iteration of the solver loop the surface CO2 is updated to
`Cs = Ca - An / gbc` with `gbc` the boundary-layer heat conductance `gbH`
divided by 1.32, and the leaf-to-air deficit to `dleaf = et * pressure / gw`
converted from Pa to kPa (division by 1000); `An`, `gbH`, `et`, `gw` are the
current iteration's submodel outputs.  (`mainAux` applies `loopBody` on each
iteration by definition.) -/
theorem loopBody_updates (M : Submodels) (e : Env) (Tleaf Cs dleaf : ℚ) :
    (loopBody M e Tleaf Cs dleaf).newCs =
      e.Ca - (M.photo Cs (Tleaf + 273.15) e.par dleaf).An /
        ((M.leafTemp Tleaf e.tair
            (M.photo Cs (Tleaf + 273.15) e.par dleaf).gs
            e.par e.vpd e.pressure e.wind).gbH / 1.32) ∧
    (loopBody M e Tleaf Cs dleaf).newDleaf =
      ((M.leafTemp Tleaf e.tair
          (M.photo Cs (Tleaf + 273.15) e.par dleaf).gs
          e.par e.vpd e.pressure e.wind).et * e.pressure /
        (M.leafTemp Tleaf e.tair
          (M.photo Cs (Tleaf + 273.15) e.par dleaf).gs
          e.par e.vpd e.pressure e.wind).gw) / 1000 := by
  constructor
  · simp only [loopBody]
    ring
  · simp only [loopBody]
    ring

/-- C7 (amended): when the solver converges, the returned value is exactly
the triple `(An, gs, et)` of the final loop body; the converged leaf
temperature and the iteration count are not part of the result. -/
theorem main_ok_result_shape (M : Submodels) (e : Env) (iterMax : ℕ)
    (r : ℚ × ℚ × ℚ) (h : CoupledModel.main M e iterMax = Except.ok r) :
    ∃ T C d, |T - (loopBody M e T C d).newTleaf| < 0.02 ∧
      r = ((loopBody M e T C d).An, (loopBody M e T C d).gs,
        (loopBody M e T C d).et) := by
  rcases main_converges_or_raises M e iterMax with ⟨T, C, d, hc, hok⟩ |
    ⟨herr, _⟩
  · refine ⟨T, C, d, hc, ?_⟩
    rw [h] at hok
    exact Except.ok.inj hok
  · rw [h] at herr
    exact absurd herr (by simp)

set_option maxRecDepth 100000 in
set_option maxHeartbeats 2000000 in
/-- C7 witness: the amended theorem applied to a concrete converging run. -/
theorem main_ok_result_shape_witness :
    ∃ T C d, |T - (loopBody Mconst env0 T C d).newTleaf| < 0.02 ∧
      ((0 : ℚ), (1 : ℚ), (5 : ℚ)) =
        ((loopBody Mconst env0 T C d).An, (loopBody Mconst env0 T C d).gs,
          (loopBody Mconst env0 T C d).et) :=
  main_ok_result_shape Mconst env0 100 (0, 1, 5)
    (by norm_num [CoupledModel.main, mainAux, loopBody, Mconst, env0])

set_option maxRecDepth 100000 in
set_option maxHeartbeats 2000000 in
/-- C7 counterexample: two runs that converge after different numbers of
iterations (1 versus 2) and at different leaf temperatures (1 versus 1/1000)
return identical results, so the solver's result contains neither the
converged leaf temperature nor the iteration count. -/
theorem main_result_counterexample :
    CoupledModel.main Mconst env1 100 = CoupledModel.main Mslow env1 100 ∧
      CoupledModel.mainSteps Mconst env1 100 = 1 ∧
      CoupledModel.mainSteps Mslow env1 100 = 2 := by
  have h1 : CoupledModel.main Mconst env1 100 = Except.ok (0, 1, 5) := by
    norm_num [CoupledModel.main, mainAux, loopBody, Mconst, env1]
  have h2 : CoupledModel.main Mslow env1 100 = Except.ok (0, 1, 5) := by
    norm_num [CoupledModel.main, mainAux, loopBody, Mslow, env1, abs_lt]
  refine ⟨h1.trans h2.symm, ?_, ?_⟩
  · norm_num [CoupledModel.mainSteps, mainAuxSteps, loopBody, Mconst, env1]
  · norm_num [CoupledModel.mainSteps, mainAuxSteps, loopBody, Mslow, env1,
      abs_lt]

/-- C8 (amended): `CoupledModel.__init__` performs no parameter validation:
for every configuration — including non-positive `leaf_width`, `Vcmax25` or
`Jmax25` — construction succeeds and stores the arguments unchanged. -/
theorem init_never_fails (g0 g1 D0 Vcmax25 Jmax25 Rd25 Eaj Eav deltaSj
    deltaSv Hdv Hdj Q10 leaf_width SW_abs : ℚ) (gs_model : GsModel)
    (iter_max : ℕ) :
    CoupledModel.init g0 g1 D0 Vcmax25 Jmax25 Rd25 Eaj Eav deltaSj deltaSv
        Hdv Hdj Q10 leaf_width SW_abs gs_model iter_max =
      Except.ok
        { g0 := g0, g1 := g1, D0 := D0, Vcmax25 := Vcmax25
          Jmax25 := Jmax25, Rd25 := Rd25, Eaj := Eaj, Eav := Eav
          deltaSj := deltaSj, deltaSv := deltaSv, Hdv := Hdv, Hdj := Hdj
          Q10 := Q10, leaf_width := leaf_width, SW_abs := SW_abs
          gs_model := gs_model, iter_max := iter_max } :=
  rfl

/-- C8 counterexample: constructing the model of the repository's demo
parameters with the non-positive `leaf_width = -1` succeeds (the stored
parameters keep `leaf_width = -1`); no `InvalidParameterError` is raised at
construction time. -/
theorem init_accepts_nonpositive_leaf_width :
    CoupledModel.init 0.001 9 1.5 30 60 2 30000 60000 650 650 200000 200000
        2 (-1) 0.8 GsModel.leuning 100 =
      Except.ok
        { g0 := 0.001, g1 := 9, D0 := 1.5, Vcmax25 := 30, Jmax25 := 60
          Rd25 := 2, Eaj := 30000, Eav := 60000, deltaSj := 650
          deltaSv := 650, Hdv := 200000, Hdj := 200000, Q10 := 2
          leaf_width := -1, SW_abs := 0.8, gs_model := GsModel.leuning
          iter_max := 100 } :=
  rfl

/-- The Tetens exponent `b * t / (c + t)` with `b = 17.502`, `c = 240.97` is
strictly increasing for `t > -240.97`. -/
lemma tetens_exponent_lt {t1 t2 : ℝ} (h1 : -240.97 < t1) (h12 : t1 < t2) :
    17.502 * t1 / (240.97 + t1) < 17.502 * t2 / (240.97 + t2) := by
  have d1 : (0 : ℝ) < 240.97 + t1 := by linarith
  have d2 : (0 : ℝ) < 240.97 + t2 := by linarith
  rw [div_lt_div_iff d1 d2]
  nlinarith

/-- The pressure-enhancement factor of `PenmanMonteith.calc_esat` is positive
for nonnegative pressure. -/
lemma enhancement_factor_pos {p : ℝ} (hp : 0 ≤ p) :
    (0 : ℝ) < 1.0007 + 3.46 * 10e-8 * p := by
  nlinarith

/-- `PenmanMonteith.calc_esat` is strictly increasing in temperature above
-240.97 degrees C for fixed nonnegative pressure. -/
lemma PM_calc_esat_lt {t1 t2 p : ℝ} (hp : 0 ≤ p) (h1 : -240.97 < t1)
    (h12 : t1 < t2) :
    PenmanMonteith.calc_esat t1 p < PenmanMonteith.calc_esat t2 p := by
  simp only [PenmanMonteith.calc_esat]
  have hfa : (0 : ℝ) < (1.0007 + 3.46 * 10e-8 * p) * 611.21 := by
    nlinarith [enhancement_factor_pos hp]
  exact mul_lt_mul_of_pos_left
    (Real.exp_lt_exp.mpr (tetens_exponent_lt h1 h12)) hfa

/-- `PenmanMonteith.calc_esat` is positive for nonnegative pressure. -/
lemma PM_calc_esat_pos (t : ℝ) {p : ℝ} (hp : 0 ≤ p) :
    0 < PenmanMonteith.calc_esat t p := by
  simp only [PenmanMonteith.calc_esat]
  exact mul_pos (by nlinarith [enhancement_factor_pos hp]) (Real.exp_pos _)

/-- `utils.calc_esat` is strictly increasing in temperature above -240.97
degrees C (for every pressure, which it ignores). -/
lemma utils_calc_esat_lt {t1 t2 p : ℝ} (h1 : -240.97 < t1) (h12 : t1 < t2) :
    Utils.calc_esat t1 p < Utils.calc_esat t2 p := by
  simp only [Utils.calc_esat]
  exact mul_lt_mul_of_pos_left
    (Real.exp_lt_exp.mpr (tetens_exponent_lt h1 h12)) (by norm_num)

/-- `utils.calc_esat` is positive everywhere. -/
lemma utils_calc_esat_pos (t p : ℝ) : 0 < Utils.calc_esat t p := by
  simp only [Utils.calc_esat]
  exact mul_pos (by norm_num) (Real.exp_pos _)

/-- C5 (amended): both saturation-vapor-pressure functions are strictly
increasing in `tair` over [-20, 60] degrees C and positive there, for every
fixed nonnegative pressure (`utils.calc_esat` for every pressure, since it
ignores the argument); the restriction to nonnegative pressure is forced by
the counterexample below. -/
theorem calc_esat_strictMono_pos (t1 t2 p : ℝ) (hp : 0 ≤ p)
    (h1 : -20 ≤ t1) (h12 : t1 < t2) (h2 : t2 ≤ 60) :
    (PenmanMonteith.calc_esat t1 p < PenmanMonteith.calc_esat t2 p ∧
      0 < PenmanMonteith.calc_esat t1 p) ∧
    (Utils.calc_esat t1 p < Utils.calc_esat t2 p ∧
      0 < Utils.calc_esat t1 p) := by
  have ht : (-240.97 : ℝ) < t1 := by linarith
  exact ⟨⟨PM_calc_esat_lt hp ht h12, PM_calc_esat_pos t1 hp⟩,
    ⟨utils_calc_esat_lt ht h12, utils_calc_esat_pos t1 p⟩⟩

/-- C5 witness: the amended theorem at `t1 = 0`, `t2 = 1`,
`pressure = 101325`. -/
theorem calc_esat_strictMono_pos_witness :
    (PenmanMonteith.calc_esat 0 101325 < PenmanMonteith.calc_esat 1 101325 ∧
      0 < PenmanMonteith.calc_esat 0 101325) ∧
    (Utils.calc_esat 0 101325 < Utils.calc_esat 1 101325 ∧
      0 < Utils.calc_esat 0 101325) :=
  calc_esat_strictMono_pos 0 1 101325 (by norm_num) (by norm_num)
    (by norm_num) (by norm_num)

/-- C5 counterexample: at the finite pressure -10^7 Pa the enhancement
factor `1.0007 + 3.46e-7 * pressure` is negative, so
`PenmanMonteith.calc_esat` returns a negative value at `tair = 0`, which
lies in [-20, 60] — refuting positivity (and strict increase) for arbitrary
finite pressure. -/
theorem PM_calc_esat_negative_pressure_counterexample :
    PenmanMonteith.calc_esat 0 (-(10 ^ 7)) < 0 := by
  simp only [PenmanMonteith.calc_esat]
  norm_num [Real.exp_zero]

/-- C6 (amended): `PenmanMonteith.calc_esat` applies the pressure-enhancement
correction and so depends on its pressure argument, but `utils.calc_esat`
ignores its pressure argument entirely: any two pressures give identical
results at the same temperature. -/
theorem calc_esat_pressure_dependence :
    (∀ tair p q : ℝ, Utils.calc_esat tair p = Utils.calc_esat tair q) ∧
    PenmanMonteith.calc_esat 25 101325 ≠ PenmanMonteith.calc_esat 25 50000 := by
  refine ⟨fun _ _ _ => rfl, ?_⟩
  simp only [PenmanMonteith.calc_esat]
  intro h
  have hE := Real.exp_pos (17.502 * 25 / (240.97 + 25))
  nlinarith

/-- C6 counterexample: `utils.calc_esat` called with the same temperature
and two different finite pressures returns identical results, refuting the
claim that the result depends on the pressure argument. -/
theorem utils_calc_esat_ignores_pressure :
    Utils.calc_esat 25 101325 = Utils.calc_esat 25 50000 :=
  rfl

/-- C10: `utils.vpd_to_rh` clamps `1 - (vpd * 1000) / esat` below at 0 and
above at 1, so it returns a relative humidity in [0, 1] for every finite
input with `tair > -240.97` degrees C. -/
theorem vpd_to_rh_in_unit_interval (vpd tair pressure : ℝ)
    (h : -240.97 < tair) :
    0 ≤ Utils.vpd_to_rh vpd tair pressure ∧
      Utils.vpd_to_rh vpd tair pressure ≤ 1 := by
  constructor
  · exact le_max_left 0 _
  · exact max_le (by norm_num) (min_le_left _ _)

/-- C10 witness: the theorem at `vpd = 1`, `tair = 25`,
`pressure = 101325`. -/
theorem vpd_to_rh_in_unit_interval_witness :
    0 ≤ Utils.vpd_to_rh 1 25 101325 ∧ Utils.vpd_to_rh 1 25 101325 ≤ 1 :=
  vpd_to_rh_in_unit_interval 1 25 101325 (by norm_num)

/-- C9: at `wind = 0` both boundary-layer terms of
`PenmanMonteith.calc_conductances` vanish when `tleaf = tair` — the forced
term because `sqrt(0 / leaf_width) = 0` and the free term because the
Grashof number `1.6e8 * |tleaf - tair| * leaf_width^3` is zero — so the
boundary-layer heat conductance `gbH` (third component) is exactly 0; the
first iteration of the solver runs with `Tleaf = tair` (its initialisation),
so the surface-CO2 update `Cs = Ca - An / (gbH / 1.32)` divides by zero and
`wind > 0` is an effective precondition of `CoupledModel.main`. -/
theorem calc_conductances_gbH_zero_at_zero_wind
    (leaf_width tair_k tair gsc cmolar : ℝ) :
    (PenmanMonteith.calc_conductances leaf_width tair_k tair tair 0 gsc
      cmolar).2.2.1 = 0 := by
  simp only [PenmanMonteith.calc_conductances, sub_self, abs_zero, mul_zero,
    zero_mul, zero_div, Real.sqrt_zero,
    Real.zero_rpow (by norm_num : (0.25 : ℝ) ≠ 0), add_zero, zero_add]

/-- C4: when the total water-vapour conductance is non-positive,
`PenmanMonteith.calc_et` returns exactly `(0.0, 0.0)` through its early
branch, performing no division; this is a defined degenerate case, not an
error. -/
theorem calc_et_gw_nonpos (tleaf tair vpd pressure wind par gh gw rnet : ℝ)
    (h : gw ≤ 0) :
    PenmanMonteith.calc_et tleaf tair vpd pressure wind par gh gw rnet =
      (0, 0) := by
  simp only [PenmanMonteith.calc_et]
  rw [if_pos h]

/-- C4 witness: the theorem at a concrete input with `gw = -1`. -/
theorem calc_et_gw_nonpos_witness :
    PenmanMonteith.calc_et 21.5 20 2 101325 2 1000 0.5 (-1) 300 = (0, 0) :=
  calc_et_gw_nonpos 21.5 20 2 101325 2 1000 0.5 (-1) 300 (by norm_num)
/-- For positive `gw`, `calc_et` returns the combination expression divided
by the latent heat `lambda_et` as its first component and the expression
itself as its second. -/
lemma calc_et_eq (tleaf tair vpd pressure wind par gh gw rnet : ℝ)
    (hgw : 0 < gw) :
    PenmanMonteith.calc_et tleaf tair vpd pressure wind par gh gw rnet =
      (et_combination tair vpd pressure gh gw rnet /
        ((PenmanMonteith.h2olv0 - 2.365e3 * tair) * PenmanMonteith.h2omw),
       et_combination tair vpd pressure gh gw rnet) := by
  simp only [PenmanMonteith.calc_et, et_combination]
  rw [if_neg (not_le.mpr hgw)]
  rw [Prod.mk.injEq]
  constructor
  · ring
  · ring

/-- C3 (amended): for `gw > 0` the value returned by `calc_et` as the latent
heat flux (W m-2) equals the Penman-Monteith combination expression, and the
returned transpiration (mol H2O m-2 s-1) is that expression divided by the
latent heat of vaporisation at air temperature — not the expression
itself. -/
theorem calc_et_div_lambda (tleaf tair vpd pressure wind par gh gw rnet : ℝ)
    (hgw : 0 < gw) :
    PenmanMonteith.calc_et tleaf tair vpd pressure wind par gh gw rnet =
      (et_combination tair vpd pressure gh gw rnet /
        ((PenmanMonteith.h2olv0 - 2.365e3 * tair) * PenmanMonteith.h2omw),
       et_combination tair vpd pressure gh gw rnet) :=
  calc_et_eq tleaf tair vpd pressure wind par gh gw rnet hgw

/-- C3 witness: the amended theorem at a concrete input with `gw = 2`. -/
theorem calc_et_div_lambda_witness :
    PenmanMonteith.calc_et 20 20 1 101325 2 1000 1 2 300 =
      (et_combination 20 1 101325 1 2 300 /
        ((PenmanMonteith.h2olv0 - 2.365e3 * 20) * PenmanMonteith.h2omw),
       et_combination 20 1 101325 1 2 300) :=
  calc_et_div_lambda 20 20 1 101325 2 1000 1 2 300 (by norm_num)

/-- C3 counterexample: at `tair = 20`, `vpd = 1 kPa`, `pressure = 101325`,
`gh = gw = 1`, `rnet = 0` (and `gw > 0`), the transpiration returned by
`calc_et` differs from the combination expression: the expression is
positive there and the code divides it by the latent heat
`(2.501e6 - 2.365e3 * 20) * 0.018 = 44166.6 > 1`. -/
theorem calc_et_not_combination :
    (PenmanMonteith.calc_et 20 20 1 101325 2 1000 1 1 0).1 ≠
      et_combination 20 1 101325 1 1 0 := by
  rw [calc_et_eq 20 20 1 101325 2 1000 1 1 0 (by norm_num)]
  show et_combination 20 1 101325 1 1 0 /
      ((PenmanMonteith.h2olv0 - 2.365e3 * 20) * PenmanMonteith.h2omw) ≠
    et_combination 20 1 101325 1 1 0
  have hs : PenmanMonteith.calc_esat 20 101325 <
      PenmanMonteith.calc_esat (20 + 0.1) 101325 :=
    PM_calc_esat_lt (by norm_num) (by norm_num) (by norm_num)
  have hE : 0 < et_combination 20 1 101325 1 1 0 := by
    simp only [et_combination, PenmanMonteith.cp, PenmanMonteith.air_mass,
      PenmanMonteith.h2olv0, PenmanMonteith.h2omw]
    have hslpos : 0 < (PenmanMonteith.calc_esat (20 + 0.1) 101325 -
        PenmanMonteith.calc_esat 20 101325) / 0.1 :=
      div_pos (sub_pos.mpr hs) (by norm_num)
    apply div_pos
    · nlinarith
    · nlinarith
  have hlam : (1 : ℝ) <
      (PenmanMonteith.h2olv0 - 2.365e3 * 20) * PenmanMonteith.h2omw := by
    norm_num [PenmanMonteith.h2olv0, PenmanMonteith.h2omw]
  exact ne_of_lt (div_lt_self hE hlam)
